import Mathlib

/-!
Verification of the request-logging observer of the snippetbox repository
(cmd/web/logger.go). The observer wraps an HTTP handler: it substitutes a
decorating writer (ResponseRecorder) for the real response writer, lets the
handler run, and afterwards emits one structured log record describing the
request. We embed the recorder as a state machine over the trace of calls
the handler makes on its writer, and HttpLogger as a function from a
request, a handler behaviour and two clock readings to the emitted records
plus the calls forwarded to the underlying writer.
-/

namespace Snippetbox

/-- Go net/http constant StatusOK. -/
def StatusOK : Nat := 200

/-- Modelled from the Go standard library: net/http StatusText, restricted to
the rows of its table that this development evaluates; Go returns the empty
string for a code outside the table, as does the catch-all row here. -/
def StatusText : Nat → String
  | 200 => "OK"
  | 201 => "Created"
  | 204 => "No Content"
  | 301 => "Moved Permanently"
  | 302 => "Found"
  | 400 => "Bad Request"
  | 401 => "Unauthorized"
  | 403 => "Forbidden"
  | 404 => "Not Found"
  | 405 => "Method Not Allowed"
  | 422 => "Unprocessable Entity"
  | 500 => "Internal Server Error"
  | 502 => "Bad Gateway"
  | 503 => "Service Unavailable"
  | _ => ""

/-- One call a handler can make on the http.ResponseWriter it is given:
Header(), WriteHeader(statusCode), or Write(bytes). Bytes are modelled as
lists of naturals. -/
inductive WriterCall where
  | header : WriterCall
  | writeHeader : Nat → WriterCall
  | write : List Nat → WriterCall
deriving DecidableEq, Repr

/-- The mutable state of the ResponseRecorder struct of logger.go: the
recorded StatusCode and the body bytes of the last Write call. The
ResponseWriter field (the underlying writer) is modelled separately, by the
list of forwarded calls and by the write-result function given to Write.
Go initialises the body slice to nil, modelled as the empty list. -/
structure ResponseRecorder where
  StatusCode : Nat
  body : List Nat
deriving DecidableEq, Repr

/-- The recorder HttpLogger allocates per request: StatusCode is
http.StatusOK, body is nil. -/
def initRecorder : ResponseRecorder :=
  { StatusCode := StatusOK, body := [] }

/-- Go http.Header, a map from field names to lists of values, modelled as
an association list. -/
def HttpHeader : Type := List (String × List String)

/-- ResponseRecorder.Header from logger.go: the method body is a bare
call that aborts with the message "implement me"; the abort is modelled as
the error branch of Except. No header value is ever produced. -/
def ResponseRecorder.Header (_ : ResponseRecorder) : Except String HttpHeader :=
  Except.error "implement me"

/-- ResponseRecorder.WriteHeader from logger.go, state part: store the
status code in the recorder. The forwarding of the same call to the
underlying writer is recorded by runRecorder. -/
def ResponseRecorder.WriteHeader (r : ResponseRecorder) (statusCode : Nat) :
    ResponseRecorder :=
  { r with StatusCode := statusCode }

/-- ResponseRecorder.Write from logger.go: store the bytes in the body
field, then return exactly what the underlying write returns on those
bytes. The underlying writer is modelled by its write-result function uw,
giving the byte count and the possible error of Go (int, error). -/
def ResponseRecorder.Write (uw : List Nat → Nat × Option String)
    (r : ResponseRecorder) (bytes : List Nat) :
    ResponseRecorder × (Nat × Option String) :=
  ({ r with body := bytes }, uw bytes)

/-- Outcome of running a trace of writer calls through the recorder:
either the final recorder state, or an abort carrying the message of the
Go runtime failure that interrupted the run. -/
inductive RunResult where
  | ok : ResponseRecorder → RunResult
  | panicked : String → RunResult
deriving DecidableEq, Repr

/-- Run a trace of handler calls through the ResponseRecorder. Returns the
outcome together with the calls forwarded to the underlying writer, in
order. Header() aborts at once and forwards nothing; WriteHeader and Write
update the recorder state exactly as the methods above do and forward the
call unchanged. -/
def runRecorder : ResponseRecorder → List WriterCall → RunResult × List WriterCall
  | r, [] => (RunResult.ok r, [])
  | _, WriterCall.header :: _ => (RunResult.panicked "implement me", [])
  | r, WriterCall.writeHeader code :: rest =>
      let out := runRecorder (r.WriteHeader code) rest
      (out.1, WriterCall.writeHeader code :: out.2)
  | r, WriterCall.write bs :: rest =>
      let out := runRecorder { r with body := bs } rest
      (out.1, WriterCall.write bs :: out.2)

/-- The request fields HttpLogger reads: Method and RequestURI. -/
structure Request where
  Method : String
  RequestURI : String
deriving DecidableEq, Repr

/-- Severity of a zerolog record: log.Info() or log.Error(). -/
inductive Severity where
  | info : Severity
  | error : Severity
deriving DecidableEq, Repr

/-- One structured record as HttpLogger emits it: severity, the optional
body field attached on the error path, and the fields protocol, method,
path, status_code, status_text, duration (nanoseconds, as an integer) and
the final message. -/
structure LogRecord where
  severity : Severity
  body : Option (List Nat)
  protocol : String
  method : String
  path : String
  status_code : Nat
  status_text : String
  duration : Int
  msg : String
deriving DecidableEq, Repr

/-- Behaviour of a wrapped handler on one request: the calls it makes on
the writer it is given, and, when it fails, the message of its own abort
after those calls. -/
structure HandlerRun where
  calls : List WriterCall
  panicMsg : Option String
deriving DecidableEq, Repr

/-- Result of one pass through the handler HttpLogger builds: either the
records emitted (the list makes the emission count explicit), or an abort
that propagated out of the observer. -/
inductive Outcome where
  | logged : List LogRecord → Outcome
  | panicked : String → Outcome
deriving DecidableEq, Repr

/-- HttpLogger from logger.go. The clock readings at entry and at handler
return are t0 and t1, so duration, computed by time.Since, is t1 - t0.
The function returns the outcome together with every call forwarded to the
underlying writer. On the normal path it builds one record: severity and
the body field follow the rec.StatusCode test against http.StatusOK, and
the record carries protocol "http", the request Method, the raw
RequestURI, the recorded status code, its StatusText, the duration and the
fixed message. An abort of the recorder or of the handler itself
propagates: no record is emitted then. -/
def HttpLogger (req : Request) (h : HandlerRun) (t0 t1 : Int) :
    Outcome × List WriterCall :=
  match runRecorder initRecorder h.calls with
  | (RunResult.panicked e, fwd) => (Outcome.panicked e, fwd)
  | (RunResult.ok rec, fwd) =>
      match h.panicMsg with
      | some e => (Outcome.panicked e, fwd)
      | none =>
          let duration : Int := t1 - t0
          let record : LogRecord :=
            { severity := if rec.StatusCode ≠ StatusOK then Severity.error
                          else Severity.info
              body := if rec.StatusCode ≠ StatusOK then some rec.body else none
              protocol := "http"
              method := req.Method
              path := req.RequestURI
              status_code := rec.StatusCode
              status_text := StatusText rec.StatusCode
              duration := duration
              msg := "received a HTTP request" }
          (Outcome.logged [record], fwd)

/-- Status code of the final recorder state on a trace; zero (never a
valid HTTP status) when the run aborts. -/
def finalStatus (calls : List WriterCall) : Nat :=
  match (runRecorder initRecorder calls).1 with
  | RunResult.ok r => r.StatusCode
  | RunResult.panicked _ => 0

/-- Body field of the final recorder state on a trace; empty when the run
aborts. -/
def finalBody (calls : List WriterCall) : List Nat :=
  match (runRecorder initRecorder calls).1 with
  | RunResult.ok r => r.body
  | RunResult.panicked _ => []

/-- The argument of the last status-set call of a trace, when there is
one. -/
def lastStatusSet : List WriterCall → Option Nat
  | [] => none
  | WriterCall.writeHeader code :: rest => some ((lastStatusSet rest).getD code)
  | _ :: rest => lastStatusSet rest

/-- The bytes of the last body-write call of a trace, when there is
one. -/
def lastWrite : List WriterCall → Option (List Nat)
  | [] => none
  | WriterCall.write bs :: rest => some ((lastWrite rest).getD bs)
  | _ :: rest => lastWrite rest

/-- Whether a call is a status-set call. -/
def isStatusSet : WriterCall → Bool
  | WriterCall.writeHeader _ => true
  | _ => false

theorem runRecorder_no_header (calls : List WriterCall) (r : ResponseRecorder)
    (h : WriterCall.header ∉ calls) :
    runRecorder r calls =
      (RunResult.ok { StatusCode := (lastStatusSet calls).getD r.StatusCode
                      body := (lastWrite calls).getD r.body }, calls) := by
  induction calls generalizing r with
  | nil => simp [runRecorder, lastStatusSet, lastWrite]
  | cons c rest ih =>
    have hrest : WriterCall.header ∉ rest := fun hm => h (List.mem_cons_of_mem _ hm)
    cases c with
    | header => exact absurd (List.mem_cons_self _ _) h
    | writeHeader code =>
        simp [runRecorder, ResponseRecorder.WriteHeader, ih _ hrest,
          lastStatusSet, lastWrite]
    | write bs =>
        simp [runRecorder, ih _ hrest, lastStatusSet, lastWrite]

theorem finalStatus_no_header (calls : List WriterCall)
    (h : WriterCall.header ∉ calls) :
    finalStatus calls = (lastStatusSet calls).getD StatusOK := by
  unfold finalStatus
  rw [runRecorder_no_header calls initRecorder h]
  rfl

theorem finalBody_no_header (calls : List WriterCall)
    (h : WriterCall.header ∉ calls) :
    finalBody calls = (lastWrite calls).getD [] := by
  unfold finalBody
  rw [runRecorder_no_header calls initRecorder h]
  rfl

theorem header_not_mem_map_write (bss : List (List Nat)) :
    WriterCall.header ∉ List.map WriterCall.write bss := by
  simp [List.mem_map]

theorem lastStatusSet_map_write (bss : List (List Nat)) :
    lastStatusSet (List.map WriterCall.write bss) = none := by
  induction bss with
  | nil => rfl
  | cons bs rest ih => simpa [lastStatusSet] using ih

theorem lastStatusSet_none_of_no_set (calls : List WriterCall)
    (h : ∀ c ∈ calls, isStatusSet c = false) :
    lastStatusSet calls = none := by
  induction calls with
  | nil => rfl
  | cons c rest ih =>
    have hrest : ∀ x ∈ rest, isStatusSet x = false :=
      fun x hx => h x (List.mem_cons_of_mem _ hx)
    cases c with
    | header => simpa [lastStatusSet] using ih hrest
    | writeHeader code =>
        have : isStatusSet (WriterCall.writeHeader code) = false :=
          h _ (List.mem_cons_self _ _)
        simp [isStatusSet] at this
    | write bs => simpa [lastStatusSet] using ih hrest

theorem lastStatusSet_append_some (pre calls : List WriterCall) (s : Nat)
    (h : lastStatusSet calls = some s) :
    lastStatusSet (pre ++ calls) = some s := by
  induction pre with
  | nil => simpa using h
  | cons c rest ih =>
    cases c with
    | header => simpa [lastStatusSet] using ih
    | writeHeader code => simp [lastStatusSet, ih]
    | write bs => simpa [lastStatusSet] using ih

theorem httpLogger_ok (req : Request) (calls : List WriterCall) (t0 t1 : Int)
    (hnh : WriterCall.header ∉ calls) :
    HttpLogger req { calls := calls, panicMsg := none } t0 t1 =
      (Outcome.logged
        [{ severity := if finalStatus calls ≠ StatusOK then Severity.error
                       else Severity.info
           body := if finalStatus calls ≠ StatusOK then some (finalBody calls)
                   else none
           protocol := "http"
           method := req.Method
           path := req.RequestURI
           status_code := finalStatus calls
           status_text := StatusText (finalStatus calls)
           duration := t1 - t0
           msg := "received a HTTP request" }], calls) := by
  unfold HttpLogger finalStatus finalBody
  rw [runRecorder_no_header calls initRecorder hnh]

/-- Claim C1: for every request on which the wrapped handler returns (it
does not abort and never invokes the unsupported header operation),
HttpLogger emits exactly one structured record, built from the recorder
state reached after the whole run of the handler, and that record carries
protocol "http", the request Method, the raw unparsed RequestURI as path,
the recorded status code, the StatusText of that code, and the measured
duration. -/
theorem C1_single_record (req : Request) (calls : List WriterCall) (t0 t1 : Int)
    (hnh : WriterCall.header ∉ calls) :
    ∃ rec : LogRecord,
      (HttpLogger req { calls := calls, panicMsg := none } t0 t1).1 =
        Outcome.logged [rec] ∧
      rec.protocol = "http" ∧
      rec.method = req.Method ∧
      rec.path = req.RequestURI ∧
      rec.status_code = finalStatus calls ∧
      rec.status_text = StatusText (finalStatus calls) ∧
      rec.duration = t1 - t0 :=
  ⟨_, congrArg Prod.fst (httpLogger_ok req calls t0 t1 hnh),
    rfl, rfl, rfl, rfl, rfl, rfl⟩

/-- Witness for C1: a GET request for the root path whose handler writes
the body "ok" and returns, observed between clock readings 0 and 5. -/
theorem C1_single_record_witness :
    (WriterCall.header ∉ [WriterCall.write [111, 107]]) ∧
    (∃ rec : LogRecord,
      (HttpLogger { Method := "GET", RequestURI := "/" }
        { calls := [WriterCall.write [111, 107]], panicMsg := none } 0 5).1 =
        Outcome.logged [rec] ∧
      rec.protocol = "http" ∧
      rec.method = "GET" ∧
      rec.path = "/" ∧
      rec.status_code = finalStatus [WriterCall.write [111, 107]] ∧
      rec.status_text = StatusText (finalStatus [WriterCall.write [111, 107]]) ∧
      rec.duration = 5 - 0) :=
  ⟨by decide,
    C1_single_record { Method := "GET", RequestURI := "/" }
      [WriterCall.write [111, 107]] 0 5 (by decide)⟩

/-- Claim C2: when the wrapped handler sets status code S and then only
makes body-write calls, however many, the status code of the emitted
record equals S. -/
theorem C2_status_set_before_writes (req : Request) (t0 t1 : Int) (S : Nat)
    (bss : List (List Nat)) :
    ∃ rec : LogRecord,
      (HttpLogger req
        { calls := WriterCall.writeHeader S :: List.map WriterCall.write bss,
          panicMsg := none } t0 t1).1 = Outcome.logged [rec] ∧
      rec.status_code = S := by
  have hnh :
      WriterCall.header ∉
        WriterCall.writeHeader S :: List.map WriterCall.write bss := by
    intro hm
    rcases List.mem_cons.mp hm with h1 | h2
    · cases h1
    · exact header_not_mem_map_write bss h2
  have hfs :
      finalStatus (WriterCall.writeHeader S :: List.map WriterCall.write bss)
        = S := by
    rw [finalStatus_no_header _ hnh]
    simp [lastStatusSet, lastStatusSet_map_write]
  exact ⟨_, congrArg Prod.fst (httpLogger_ok req _ t0 t1 hnh), hfs⟩

/-- Claim C3: when the wrapped handler never makes a status-set call (and
returns, never touching the unsupported header operation), the status code
of the emitted record is the default 200, the value of http.StatusOK. -/
theorem C3_default_status (req : Request) (t0 t1 : Int)
    (calls : List WriterCall)
    (hns : ∀ c ∈ calls, isStatusSet c = false)
    (hnh : WriterCall.header ∉ calls) :
    ∃ rec : LogRecord,
      (HttpLogger req { calls := calls, panicMsg := none } t0 t1).1 =
        Outcome.logged [rec] ∧
      rec.status_code = 200 := by
  have hfs : finalStatus calls = 200 := by
    rw [finalStatus_no_header _ hnh, lastStatusSet_none_of_no_set _ hns]
    rfl
  exact ⟨_, congrArg Prod.fst (httpLogger_ok req _ t0 t1 hnh), hfs⟩

/-- Witness for C3: a handler that writes one body chunk and never sets a
status. -/
theorem C3_default_status_witness :
    (∀ c ∈ [WriterCall.write [111, 107]], isStatusSet c = false) ∧
    (WriterCall.header ∉ [WriterCall.write [111, 107]]) ∧
    (∃ rec : LogRecord,
      (HttpLogger { Method := "GET", RequestURI := "/" }
        { calls := [WriterCall.write [111, 107]], panicMsg := none } 0 5).1 =
        Outcome.logged [rec] ∧
      rec.status_code = 200) :=
  ⟨by decide, by decide,
    C3_default_status { Method := "GET", RequestURI := "/" } 0 5
      [WriterCall.write [111, 107]] (by decide) (by decide)⟩

/-- Claim C4: the emitted record is at informational severity with no body
field exactly when the recorded status is 200 (http.StatusOK); otherwise
it is at error severity and its body field holds exactly the bytes of the
last body-write call of the handler (the empty, nil, byte sequence when
the handler never wrote). -/
theorem C4_severity_and_body (req : Request) (t0 t1 : Int)
    (calls : List WriterCall)
    (hnh : WriterCall.header ∉ calls) :
    ∃ rec : LogRecord,
      (HttpLogger req { calls := calls, panicMsg := none } t0 t1).1 =
        Outcome.logged [rec] ∧
      ((rec.severity = Severity.info ∧ rec.body = none) ↔
        rec.status_code = StatusOK) ∧
      (rec.status_code ≠ StatusOK →
        rec.severity = Severity.error ∧
        rec.body = some ((lastWrite calls).getD [])) := by
  refine ⟨_, congrArg Prod.fst (httpLogger_ok req calls t0 t1 hnh), ?_, ?_⟩
  · by_cases hs : finalStatus calls = StatusOK <;> simp [hs]
  · intro hne
    have hne2 : finalStatus calls ≠ StatusOK := hne
    simp [hne2, finalBody_no_header calls hnh]

/-- Witness for C4: a handler that sets status 500 and writes the body
"boom". -/
theorem C4_severity_and_body_witness :
    (WriterCall.header ∉
      [WriterCall.writeHeader 500, WriterCall.write [98, 111, 111, 109]]) ∧
    (∃ rec : LogRecord,
      (HttpLogger { Method := "GET", RequestURI := "/" }
        { calls := [WriterCall.writeHeader 500,
                    WriterCall.write [98, 111, 111, 109]],
          panicMsg := none } 0 7).1 = Outcome.logged [rec] ∧
      ((rec.severity = Severity.info ∧ rec.body = none) ↔
        rec.status_code = StatusOK) ∧
      (rec.status_code ≠ StatusOK →
        rec.severity = Severity.error ∧
        rec.body = some
          ((lastWrite [WriterCall.writeHeader 500,
                       WriterCall.write [98, 111, 111, 109]]).getD []))) :=
  ⟨by decide,
    C4_severity_and_body { Method := "GET", RequestURI := "/" } 0 7
      [WriterCall.writeHeader 500, WriterCall.write [98, 111, 111, 109]]
      (by decide)⟩

/-- Claim C5: the observer is a transparent pass-through. As long as the
handler never touches the unsupported header operation, every status-set
and body-write call reaches the underlying writer unchanged and in order;
the return value of a body-write is exactly what the underlying write
returns on the same bytes; and an abort of the handler itself propagates
out of HttpLogger with its message unchanged, neither swallowed, retried
nor transformed. -/
theorem C5_transparent (req : Request) (calls : List WriterCall)
    (pm : Option String) (t0 t1 : Int)
    (uw : List Nat → Nat × Option String) (r : ResponseRecorder)
    (bs : List Nat)
    (hnh : WriterCall.header ∉ calls) :
    (HttpLogger req { calls := calls, panicMsg := pm } t0 t1).2 = calls ∧
    (ResponseRecorder.Write uw r bs).2 = uw bs ∧
    (∀ e, pm = some e →
      (HttpLogger req { calls := calls, panicMsg := pm } t0 t1).1 =
        Outcome.panicked e) := by
  have hrun := runRecorder_no_header calls initRecorder hnh
  refine ⟨?_, rfl, ?_⟩
  · unfold HttpLogger
    rw [hrun]
    cases pm <;> rfl
  · intro e he
    unfold HttpLogger
    rw [hrun]
    cases pm with
    | none => exact absurd he (by simp)
    | some x =>
        have : x = e := by simpa using he
        rw [this]

/-- Witness for C5: a handler that sets status 500, writes "boom", then
aborts with message "kaput"; the underlying write reports seven bytes
written and no error. -/
theorem C5_transparent_witness :
    (WriterCall.header ∉
      [WriterCall.writeHeader 500, WriterCall.write [98, 111, 111, 109]]) ∧
    ((HttpLogger { Method := "GET", RequestURI := "/" }
        { calls := [WriterCall.writeHeader 500,
                    WriterCall.write [98, 111, 111, 109]],
          panicMsg := some "kaput" } 0 7).2 =
      [WriterCall.writeHeader 500, WriterCall.write [98, 111, 111, 109]] ∧
    (ResponseRecorder.Write (fun bs => (bs.length, none))
        { StatusCode := 200, body := [] } [98, 111, 111, 109]).2 =
      (fun bs : List Nat => (bs.length, (none : Option String)))
        [98, 111, 111, 109] ∧
    (∀ e, (some "kaput" : Option String) = some e →
      (HttpLogger { Method := "GET", RequestURI := "/" }
        { calls := [WriterCall.writeHeader 500,
                    WriterCall.write [98, 111, 111, 109]],
          panicMsg := some "kaput" } 0 7).1 = Outcome.panicked e)) :=
  ⟨by decide,
    C5_transparent { Method := "GET", RequestURI := "/" }
      [WriterCall.writeHeader 500, WriterCall.write [98, 111, 111, 109]]
      (some "kaput") 0 7 (fun bs => (bs.length, none))
      { StatusCode := 200, body := [] } [98, 111, 111, 109] (by decide)⟩

/-- Claim C6: every invocation of the header-inspection operation on the
decorating writer aborts with the message "implement me" instead of
returning a header value, and it is the only operation of the observer
that can abort: a run of any trace free of that operation never ends in
the panicked outcome. -/
theorem C6_header_only_abort (r0 r1 : ResponseRecorder)
    (calls : List WriterCall)
    (hnh : WriterCall.header ∉ calls) :
    r0.Header = Except.error "implement me" ∧
    (∃ rf : ResponseRecorder, (runRecorder r1 calls).1 = RunResult.ok rf) := by
  refine ⟨rfl, ?_⟩
  rw [runRecorder_no_header calls r1 hnh]
  exact ⟨_, rfl⟩

/-- Witness for C6: the initial recorder and a two-call trace without the
header operation. -/
theorem C6_header_only_abort_witness :
    (WriterCall.header ∉
      [WriterCall.writeHeader 404, WriterCall.write [110, 111]]) ∧
    (ResponseRecorder.Header initRecorder = Except.error "implement me" ∧
    (∃ rf : ResponseRecorder,
      (runRecorder initRecorder
        [WriterCall.writeHeader 404, WriterCall.write [110, 111]]).1 =
        RunResult.ok rf)) :=
  ⟨by decide,
    C6_header_only_abort initRecorder initRecorder
      [WriterCall.writeHeader 404, WriterCall.write [110, 111]] (by decide)⟩

/-- Claim C7, counterexample: the decorating writer does not forward
header-mutation calls. A handler that attempts one (every header mutation
in Go starts by invoking Header on the writer) makes the recorder abort at
once: nothing is forwarded to the underlying writer, and in particular the
forwarded list differs from the one-call trace, refuting the claim that
all header-mutation calls are forwarded unchanged. -/
theorem C7_counterexample :
    (runRecorder initRecorder [WriterCall.header]).2 = [] ∧
    (runRecorder initRecorder [WriterCall.header]).2 ≠ [WriterCall.header] ∧
    (runRecorder initRecorder [WriterCall.header]).1 =
      RunResult.panicked "implement me" := by
  refine ⟨rfl, ?_, rfl⟩
  decide

/-- Claim C7 as amended: the decorating writer supports no header access
at all. Every attempt aborts with the message "implement me" of its
unimplemented Header method and forwards nothing to the underlying
writer. -/
theorem C7_amended_no_forwarding (r : ResponseRecorder)
    (rest : List WriterCall) :
    ResponseRecorder.Header r = Except.error "implement me" ∧
    runRecorder r (WriterCall.header :: rest) =
      (RunResult.panicked "implement me", []) :=
  ⟨rfl, rfl⟩

/-- Claim C8, counterexample: a handler that writes the body "ok" and
never sets a status finishes with status 200 (the value of http.StatusOK),
yet the recorder retains the written bytes in its body field, refuting the
invariant that body bytes are retained only when an error status
occurred. -/
theorem C8_counterexample :
    finalStatus [WriterCall.write [111, 107]] = StatusOK ∧
    finalBody [WriterCall.write [111, 107]] = [111, 107] ∧
    finalBody [WriterCall.write [111, 107]] ≠ [] := by
  refine ⟨rfl, rfl, ?_⟩
  decide

/-- Claim C8 as amended: the recorder retains the bytes of the last
body-write call of the handler whatever the status turns out to be; the
restriction to error statuses concerns the emitted record only, whose body
field is attached exactly when the final status differs from 200. -/
theorem C8_amended_body_retention (req : Request) (t0 t1 : Int)
    (calls : List WriterCall)
    (hnh : WriterCall.header ∉ calls) :
    finalBody calls = (lastWrite calls).getD [] ∧
    (∃ rec : LogRecord,
      (HttpLogger req { calls := calls, panicMsg := none } t0 t1).1 =
        Outcome.logged [rec] ∧
      (rec.body ≠ none ↔ finalStatus calls ≠ StatusOK)) := by
  refine ⟨finalBody_no_header calls hnh,
    _, congrArg Prod.fst (httpLogger_ok req calls t0 t1 hnh), ?_⟩
  by_cases hs : finalStatus calls = StatusOK <;> simp [hs]

/-- Witness for the amended C8: a handler that writes "ok" under the
default status. -/
theorem C8_amended_body_retention_witness :
    (WriterCall.header ∉ [WriterCall.write [111, 107]]) ∧
    (finalBody [WriterCall.write [111, 107]] =
      (lastWrite [WriterCall.write [111, 107]]).getD [] ∧
    (∃ rec : LogRecord,
      (HttpLogger { Method := "GET", RequestURI := "/" }
        { calls := [WriterCall.write [111, 107]], panicMsg := none } 0 5).1 =
        Outcome.logged [rec] ∧
      (rec.body ≠ none ↔
        finalStatus [WriterCall.write [111, 107]] ≠ StatusOK))) :=
  ⟨by decide,
    C8_amended_body_retention { Method := "GET", RequestURI := "/" } 0 5
      [WriterCall.write [111, 107]] (by decide)⟩

/-- Claim C9: the logged duration is exactly the difference of the two
clock readings taken on entry and after the handler returns; under a
monotone clock it is non-negative, and when the handler takes at least d
the logged duration is at least d. -/
theorem C9_duration (req : Request) (calls : List WriterCall)
    (t0 t1 d : Int)
    (hnh : WriterCall.header ∉ calls)
    (hmono : t0 ≤ t1) (hd : d ≤ t1 - t0) :
    ∃ rec : LogRecord,
      (HttpLogger req { calls := calls, panicMsg := none } t0 t1).1 =
        Outcome.logged [rec] ∧
      rec.duration = t1 - t0 ∧ 0 ≤ rec.duration ∧ d ≤ rec.duration := by
  refine ⟨_, congrArg Prod.fst (httpLogger_ok req calls t0 t1 hnh),
    rfl, ?_, ?_⟩
  · simpa using sub_nonneg.mpr hmono
  · simpa using hd

/-- Witness for C9: clock readings 2 and 9 with a handler delay of at
least 4. -/
theorem C9_duration_witness :
    (WriterCall.header ∉ ([] : List WriterCall)) ∧ (2 : Int) ≤ 9 ∧
    (4 : Int) ≤ 9 - 2 ∧
    (∃ rec : LogRecord,
      (HttpLogger { Method := "GET", RequestURI := "/" }
        { calls := [], panicMsg := none } 2 9).1 = Outcome.logged [rec] ∧
      rec.duration = 9 - 2 ∧ 0 ≤ rec.duration ∧ (4 : Int) ≤ rec.duration) :=
  ⟨by decide, by decide, by decide,
    C9_duration { Method := "GET", RequestURI := "/" } [] 2 9 4
      (by decide) (by decide) (by decide)⟩

/-- Claim C10: when the handler makes several status-set calls, the last
one wins in the recorder, so the status code of the emitted record is the
argument of the last status-set call, whatever calls preceded it. -/
theorem C10_last_status_set_wins (req : Request) (t0 t1 : Int)
    (pre : List WriterCall) (S : Nat) (rest : List WriterCall)
    (hpre : WriterCall.header ∉ pre)
    (hrest : WriterCall.header ∉ rest)
    (hnos : ∀ c ∈ rest, isStatusSet c = false) :
    finalStatus (pre ++ WriterCall.writeHeader S :: rest) = S ∧
    (∃ rec : LogRecord,
      (HttpLogger req
        { calls := pre ++ WriterCall.writeHeader S :: rest,
          panicMsg := none } t0 t1).1 = Outcome.logged [rec] ∧
      rec.status_code = S) := by
  have hnh : WriterCall.header ∉ pre ++ WriterCall.writeHeader S :: rest := by
    intro hm
    rcases List.mem_append.mp hm with h1 | h2
    · exact hpre h1
    · rcases List.mem_cons.mp h2 with h3 | h4
      · cases h3
      · exact hrest h4
  have hls : lastStatusSet (pre ++ WriterCall.writeHeader S :: rest)
      = some S := by
    apply lastStatusSet_append_some
    simp [lastStatusSet, lastStatusSet_none_of_no_set rest hnos]
  have hfs : finalStatus (pre ++ WriterCall.writeHeader S :: rest) = S := by
    rw [finalStatus_no_header _ hnh, hls]
    rfl
  exact ⟨hfs, _, congrArg Prod.fst (httpLogger_ok req _ t0 t1 hnh), hfs⟩

/-- Witness for C10: the handler sets status 301, then 404, then writes a
body; the logged status is 404. -/
theorem C10_last_status_set_wins_witness :
    (WriterCall.header ∉ [WriterCall.writeHeader 301]) ∧
    (WriterCall.header ∉ [WriterCall.write [110, 111]]) ∧
    (∀ c ∈ [WriterCall.write [110, 111]], isStatusSet c = false) ∧
    (finalStatus ([WriterCall.writeHeader 301] ++
      WriterCall.writeHeader 404 :: [WriterCall.write [110, 111]]) = 404 ∧
    (∃ rec : LogRecord,
      (HttpLogger { Method := "GET", RequestURI := "/gone" }
        { calls := [WriterCall.writeHeader 301] ++
            WriterCall.writeHeader 404 :: [WriterCall.write [110, 111]],
          panicMsg := none } 0 3).1 = Outcome.logged [rec] ∧
      rec.status_code = 404)) :=
  ⟨by decide, by decide, by decide,
    C10_last_status_set_wins { Method := "GET", RequestURI := "/gone" } 0 3
      [WriterCall.writeHeader 301] 404 [WriterCall.write [110, 111]]
      (by decide) (by decide) (by decide)⟩

end Snippetbox
